import Mathlib

/-!
# Verification of the Pashudhan Lens setup/cleanup scripts

Shallow embedding of `setup.py` and `clean.py` from the Pashudhan-Lens
repository. The filesystem is a partial map from path strings to entries;
interactive stdin answers are explicit string parameters; child-process
outcomes (node probe, npm install, dev server) are explicit boolean /
enumerated oracles; Python exceptions that escape a function are modelled
with `Except`.
-/

/-- A filesystem entry: a regular file with its byte content, or a
directory (contents addressed by longer paths). -/
inductive Entry
  | file (content : String)
  | dir
deriving DecidableEq, Repr

/-- The filesystem: a partial map from path names to entries.
`os.path.exists t` is `(fs t).isSome`. -/
def FS : Type := String → Option Entry

/-- The empty filesystem. -/
def emptyFS : FS := fun _ => none

/-- Model of Python `str.strip()`: remove whitespace from both ends (written
structurally over the character list so it evaluates in the kernel). -/
def pyStrip (s : String) : String :=
  ⟨((s.data.dropWhile Char.isWhitespace).reverse.dropWhile
      Char.isWhitespace).reverse⟩

/-- Model of Python `str.lower()` (ASCII case folding, structural). -/
def pyLower (s : String) : String := ⟨s.data.map Char.toLower⟩

/-- Normalization `input(...).strip().lower()` applied to every
yes/no answer in both scripts. -/
def normalizeAnswer (s : String) : String := pyLower (pyStrip s)

/-- Predicate: `p` lies strictly below directory `t` (its name extends `t ++ "/"`). -/
def strBelow (t p : String) : Bool := (t ++ "/").data.isPrefixOf p.data

/-- Model of `open(path, "w").write(content)`: create or truncate `path`. -/
def writeFile (fs : FS) (path content : String) : FS :=
  fun p => if p = path then some (.file content) else fs p

/-- Model of `os.remove t`: drop the single entry at `t`. -/
def removeFile (fs : FS) (t : String) : FS :=
  fun p => if p = t then none else fs p

/-- Model of `shutil.rmtree t`: drop `t` and every path below it. -/
def rmtree (fs : FS) (t : String) : FS :=
  fun p => if p = t ∨ strBelow t p then none else fs p

/-- Per-target outcome line printed by the loop in `clean_project`. -/
inductive Report
  | removed (t : String)
  | failed (t : String) (e : String)
  | skipped (t : String)
deriving DecidableEq, Repr

/-- The target a report line is about. -/
def Report.target : Report → String
  | removed t => t
  | failed t _ => t
  | skipped t => t

/-- One iteration of the loop in `clean_project` (clean.py lines 33-44):
if the target exists, try to remove it (directory → `rmtree`, file →
`os.remove`); an `Exception` raised by the removal (`err t = some msg`)
is caught and reported; an absent target is reported as skipped.  `err`
is the environment oracle saying whether the OS raises for a target. -/
def cleanStep (err : String → Option String) (fs : FS) (t : String) :
    FS × Report :=
  match fs t with
  | none => (fs, .skipped t)
  | some e =>
    match err t with
    | some msg => (fs, .failed t msg)
    | none =>
      match e with
      | .dir => (rmtree fs t, .removed t)
      | .file _ => (removeFile fs t, .removed t)

/-- The `for target in targets` loop of `clean_project`, threading the
filesystem and collecting one report per target in order. -/
def cleanLoop (err : String → Option String) (fs : FS) :
    List String → FS × List Report
  | [] => (fs, [])
  | t :: ts =>
    let s := cleanStep err fs t
    let r := cleanLoop err s.1 ts
    (r.1, s.2 :: r.2)

/-- The hard-coded target list of clean.py lines 14-20. -/
def cleanupTargets : List String :=
  ["node_modules", "dist", ".env", ".env.vercel", ".husky"]

/-- Result of a `clean_project` run: final filesystem, per-target
reports, whether the run was cancelled at the prompt, and the process
exit code (clean.py never calls `sys.exit`, so it is always 0). -/
structure CleanResult where
  fs : FS
  reports : List Report
  cancelled : Bool
  exitCode : Nat

/-- Model of `clean_project` (clean.py lines 11-47): confirm with
`input(...).strip().lower()`; anything other than `"y"` cancels; on
`"y"` run the removal loop over the five hard-coded targets. -/
def clean_project (confirm : String) (err : String → Option String)
    (fs : FS) : CleanResult :=
  if normalizeAnswer confirm ≠ "y" then ⟨fs, [], true, 0⟩
  else
    let r := cleanLoop err fs cleanupTargets
    ⟨r.1, r.2, false, 0⟩

/-- The environment block composed at setup.py line 60 (inputs already
stripped by the caller). -/
def envContent (geminiKey clerkKey : String) : String :=
  "VITE_GEMINI_API_KEY=" ++ geminiKey ++
    "\nVITE_CLERK_PUBLISHABLE_KEY=" ++ clerkKey

/-- The write phase of `setup_environment` (setup.py lines 57-67):
strip both keys, compose the block, write it to `.env` and then to
`.env.vercel`. -/
def setupWrite (fs : FS) (gemini clerk : String) : FS :=
  let content := envContent (pyStrip gemini) (pyStrip clerk)
  writeFile (writeFile fs ".env" content) ".env.vercel" content

/-- Model of `setup_environment` (setup.py lines 43-69): if `.env` exists, ask
whether to re-enter keys; a stripped-lowercased answer other than `"y"`
returns without touching anything.  Otherwise prompt for the two keys
and write both files.  The boolean records whether the write phase ran. -/
def setup_environment (fs : FS) (reconfigure gemini clerk : String) :
    FS × Bool :=
  if (fs ".env").isSome then
    if normalizeAnswer reconfigure ≠ "y" then (fs, false)
    else (setupWrite fs gemini clerk, true)
  else (setupWrite fs gemini clerk, true)

/-- Outcome of `check_node` (setup.py lines 13-31): presence verdict,
how many times `node -v` was probed, whether the help page was opened
(`webbrowser.open`), and whether the script blocked on `input(...)`.
`p1`/`p2` are the oracle outcomes of the first and second probe. -/
structure ProbeResult where
  verdict : Bool
  probes : Nat
  openedHelp : Bool
  blocked : Bool
deriving DecidableEq, Repr

/-- Model of `check_node`: first probe succeeding returns `true` immediately; on
`CalledProcessError` print guidance, open https://nodejs.org/, block on
Enter, probe once more, and return that second verdict. -/
def check_node (p1 p2 : Bool) : ProbeResult :=
  if p1 then ⟨true, 1, false, false⟩
  else ⟨p2, 2, true, true⟩

/-- Model of `install_dependencies` (setup.py lines 33-41): `npm install`; on
`CalledProcessError` the script dies via `sys.exit 1` (`some 1`);
otherwise control returns normally (`none`). -/
def install_dependencies (npmOk : Bool) : Option Nat :=
  if npmOk then none else some 1

/-- Outcome of the blocking `npm run dev -- --open` child process. -/
inductive DevOutcome
  | ok
  | interrupted
  | failed (e : String)
deriving DecidableEq, Repr

/-- Model of `start_app` (setup.py lines 71-80): run the dev server; a
`KeyboardInterrupt` is caught and prints `"Stopped."`; any other
exception `e` (e.g. `CalledProcessError` on a non-zero child exit)
propagates (`Except.error e`).  The `.ok` payload is the messages
printed. -/
def start_app : DevOutcome → Except String (List String)
  | .ok => .ok ["🚀 Starting Pashudhan Lens..."]
  | .interrupted => .ok ["🚀 Starting Pashudhan Lens...", "Stopped."]
  | .failed e => .error e

/-- Model of `ask_cleanup` (setup.py lines 82-89): on a stripped-lowercased
`"y"` and an existing `clean.py`, run the cleanup script (its own
confirmation prompt reads `confirm`).  The boolean records whether the
cleanup script was launched. -/
def ask_cleanup (choice confirm : String) (err : String → Option String)
    (fs : FS) : FS × Bool :=
  if normalizeAnswer choice = "y" then
    if (fs "clean.py").isSome then ((clean_project confirm err fs).fs, true)
    else (fs, false)
  else (fs, false)

/-- Final state of a `main` run of setup.py: resulting filesystem and
the process exit code (an uncaught exception terminates the Python
interpreter with exit code 1). -/
structure MainResult where
  fs : FS
  exitCode : Nat

/-- Model of the `main` entry point of setup.py (lines 91-104): probe node; on a positive verdict
install dependencies (failure exits 1), write configuration, start the
app (an uncaught launch error kills the process with exit code 1), then
offer cleanup; on a negative verdict print failure and return (exit 0). -/
def setupMain (p1 p2 npmOk : Bool) (dev : DevOutcome)
    (reconfigure gemini clerk choice confirm : String)
    (err : String → Option String) (fs : FS) : MainResult :=
  if (check_node p1 p2).verdict then
    match install_dependencies npmOk with
    | some code => ⟨fs, code⟩
    | none =>
      let fs1 := (setup_environment fs reconfigure gemini clerk).1
      match start_app dev with
      | .error _ => ⟨fs1, 1⟩
      | .ok _ => ⟨(ask_cleanup choice confirm err fs1).1, 0⟩
  else ⟨fs, 0⟩

example : (normalizeAnswer "n" = "y") = False := by decide
example : (normalizeAnswer " Y " = "y") = True := by decide
example : (normalizeAnswer "yes" = "y") = False := by decide
example : cleanStep (fun _ => none) emptyFS "dist" = (emptyFS, .skipped "dist") := rfl

/-! ## Helper lemmas -/

/-- The report produced by one loop iteration is always about the
own target of the iteration, whatever the filesystem and error oracle say. -/
theorem cleanStep_target (err : String → Option String) (fs : FS)
    (t : String) : ((cleanStep err fs t).2).target = t := by
  unfold cleanStep
  cases fs t with
  | none => rfl
  | some e =>
    cases err t with
    | some m => rfl
    | none => cases e <;> rfl

/-- The loop emits exactly one report per target, in the original
order, for every error oracle and every starting filesystem. -/
theorem cleanLoop_targets (err : String → Option String) (fs : FS)
    (ts : List String) :
    (cleanLoop err fs ts).2.map Report.target = ts := by
  induction ts generalizing fs with
  | nil => rfl
  | cons a as ih =>
    simp [cleanLoop, cleanStep_target, ih]

/-- When `.env` is absent or the overwrite answer normalizes to `"y"`,
`setup_environment` runs the write phase. -/
theorem setup_environment_proceeds (fs : FS) (ans g c : String)
    (h : fs ".env" = none ∨ normalizeAnswer ans = "y") :
    setup_environment fs ans g c = (setupWrite fs g c, true) := by
  unfold setup_environment
  rcases h with h | h
  · rw [h]; rfl
  · cases hx : (fs ".env").isSome <;> simp [hx, h]

/-! ## Claim theorems -/

/-- C2: a cleanup confirmation that does not normalize to the
affirmative token aborts the run entirely: the filesystem is returned
unchanged, no report is produced, the run is marked cancelled, and the
exit code is 0. -/
theorem clean_cancel_no_mutation (confirm : String)
    (err : String → Option String) (fs : FS)
    (h : normalizeAnswer confirm ≠ "y") :
    clean_project confirm err fs = ⟨fs, [], true, 0⟩ := by
  unfold clean_project
  rw [if_pos h]

/-- Witness for C2 at the concrete answer `"n"`. -/
theorem clean_cancel_no_mutation_witness :
    normalizeAnswer "n" ≠ "y" ∧
      clean_project "n" (fun _ => none) emptyFS = ⟨emptyFS, [], true, 0⟩ :=
  ⟨by decide, clean_cancel_no_mutation "n" (fun _ => none) emptyFS (by decide)⟩

/-- C3: when `.env` already exists and the overwrite answer is
non-affirmative, `setup_environment` is a no-op: the whole filesystem
(hence the content of `.env`, byte-for-byte) is unchanged and no write
happened. -/
theorem setup_noop_on_decline (fs : FS) (ans g c : String) (e : Entry)
    (hex : fs ".env" = some e) (hans : normalizeAnswer ans ≠ "y") :
    setup_environment fs ans g c = (fs, false) ∧
      (setup_environment fs ans g c).1 ".env" = some e := by
  have h : setup_environment fs ans g c = (fs, false) := by
    unfold setup_environment
    rw [hex]
    simp [hans]
  exact ⟨h, by rw [h]; exact hex⟩

/-- Witness for C3: a filesystem whose `.env` holds `"OLD=1"`, answer
`"n"`. -/
theorem setup_noop_on_decline_witness :
    setup_environment
        (fun p => if p = ".env" then some (Entry.file "OLD=1") else none)
        "n" "g" "c"
      = ((fun p => if p = ".env" then some (Entry.file "OLD=1") else none),
          false) ∧
      (setup_environment
          (fun p => if p = ".env" then some (Entry.file "OLD=1") else none)
          "n" "g" "c").1 ".env" = some (Entry.file "OLD=1") :=
  setup_noop_on_decline _ "n" "g" "c" (Entry.file "OLD=1") (by decide)
    (by decide)

/-- C8: for each of the five hard-coded cleanup targets, a target
absent when its turn comes is reported `skipped` and its loop iteration
leaves the filesystem untouched; the run (confirmed with `"y"`) always
finishes with exit code 0; and the target list has exactly five
entries. -/
theorem clean_skip_absent (err : String → Option String) (fs : FS)
    (t : String) (_hmem : t ∈ cleanupTargets) (habs : fs t = none) :
    cleanStep err fs t = (fs, Report.skipped t) ∧
      (clean_project "y" err fs).exitCode = 0 ∧
      cleanupTargets.length = 5 := by
  refine ⟨?_, ?_, rfl⟩
  · unfold cleanStep
    rw [habs]
  · have hy : normalizeAnswer "y" = "y" := by decide
    unfold clean_project
    rw [if_neg (by simp [hy])]

/-- Witness for C8 at target `"dist"` on the empty filesystem. -/
theorem clean_skip_absent_witness :
    cleanStep (fun _ => none) emptyFS "dist" = (emptyFS, Report.skipped "dist") ∧
      (clean_project "y" (fun _ => none) emptyFS).exitCode = 0 ∧
      cleanupTargets.length = 5 :=
  clean_skip_absent (fun _ => none) emptyFS "dist" (by decide) rfl

/-- C1: the removal loop is best-effort: for every error oracle,
filesystem and target list it emits exactly one report per target in
the fixed order (so a failure never prevents attempting the remaining
targets), and an iteration whose removal raises is caught: it reports
`failed` with the raised message and leaves the filesystem as it was. -/
theorem clean_best_effort (err : String → Option String) (fs fs₁ : FS)
    (ts : List String) (t msg : String) (e₁ : Entry)
    (hex : fs₁ t = some e₁) (herr : err t = some msg) :
    (cleanLoop err fs ts).2.map Report.target = ts ∧
      cleanStep err fs₁ t = (fs₁, Report.failed t msg) := by
  refine ⟨cleanLoop_targets err fs ts, ?_⟩
  unfold cleanStep
  rw [hex, herr]

/-- Witness for C1: a permission error on `"dist"` while looping over
two further targets. -/
theorem clean_best_effort_witness :
    (cleanLoop (fun u => if u = "dist" then some "Permission denied" else none)
        emptyFS ["node_modules", "dist"]).2.map Report.target
      = ["node_modules", "dist"] ∧
      cleanStep (fun u => if u = "dist" then some "Permission denied" else none)
          (fun p => if p = "dist" then some Entry.dir else none) "dist"
        = ((fun p => if p = "dist" then some Entry.dir else none),
            Report.failed "dist" "Permission denied") :=
  clean_best_effort _ emptyFS _ ["node_modules", "dist"] "dist"
    "Permission denied" Entry.dir (by decide) (by decide)

/-- C4: whenever the write phase runs (`.env` absent, or overwrite
confirmed), both destination files receive the same fixed-format block
verbatim, so they are byte-identical; the block lists both keys with
the stripped user values, and with both inputs empty it still contains
both keys with empty values. -/
theorem setup_writes_identical (fs : FS) (ans g c : String)
    (h : fs ".env" = none ∨ normalizeAnswer ans = "y") :
    (setup_environment fs ans g c).1 ".env"
        = some (Entry.file (envContent (pyStrip g) (pyStrip c))) ∧
      (setup_environment fs ans g c).1 ".env.vercel"
        = some (Entry.file (envContent (pyStrip g) (pyStrip c))) ∧
      (setup_environment fs ans g c).1 ".env"
        = (setup_environment fs ans g c).1 ".env.vercel" ∧
      envContent (pyStrip g) (pyStrip c)
        = "VITE_GEMINI_API_KEY=" ++ pyStrip g
            ++ "\nVITE_CLERK_PUBLISHABLE_KEY=" ++ pyStrip c ∧
      envContent "" "" = "VITE_GEMINI_API_KEY=\nVITE_CLERK_PUBLISHABLE_KEY=" := by
  have hw := setup_environment_proceeds fs ans g c h
  rw [hw]
  refine ⟨?_, ?_, ?_, rfl, rfl⟩ <;> simp [setupWrite, writeFile]

/-- Witness for C4: empty filesystem and both secrets empty. -/
theorem setup_writes_identical_witness :
    (setup_environment emptyFS "x" "" "").1 ".env"
        = some (Entry.file (envContent (pyStrip "") (pyStrip ""))) ∧
      (setup_environment emptyFS "x" "" "").1 ".env.vercel"
        = some (Entry.file (envContent (pyStrip "") (pyStrip ""))) ∧
      (setup_environment emptyFS "x" "" "").1 ".env"
        = (setup_environment emptyFS "x" "" "").1 ".env.vercel" ∧
      envContent (pyStrip "") (pyStrip "")
        = "VITE_GEMINI_API_KEY=" ++ pyStrip ""
            ++ "\nVITE_CLERK_PUBLISHABLE_KEY=" ++ pyStrip "" ∧
      envContent "" "" = "VITE_GEMINI_API_KEY=\nVITE_CLERK_PUBLISHABLE_KEY=" :=
  setup_writes_identical emptyFS "x" "" "" (Or.inl rfl)

/-- C10: the overwrite guard inspects only `.env`: whenever the write
phase runs, `.env.vercel` ends up holding the freshly composed block,
with no hypothesis at all on whether `.env.vercel` existed before or
what it contained. -/
theorem vercel_overwritten_unconditionally (fs : FS) (ans g c : String)
    (h : fs ".env" = none ∨ normalizeAnswer ans = "y") :
    (setup_environment fs ans g c).1 ".env.vercel"
      = some (Entry.file (envContent (pyStrip g) (pyStrip c))) := by
  rw [setup_environment_proceeds fs ans g c h]
  simp [setupWrite, writeFile]

/-- Witness for C10: `.env` absent but `.env.vercel` pre-existing with
unrelated content `"OLD"`; it is overwritten anyway. -/
theorem vercel_overwritten_unconditionally_witness :
    (setup_environment
        (fun p => if p = ".env.vercel" then some (Entry.file "OLD") else none)
        "n" "g" "k").1 ".env.vercel"
      = some (Entry.file (envContent (pyStrip "g") (pyStrip "k"))) :=
  vercel_overwritten_unconditionally _ "n" "g" "k" (Or.inl (by decide))

/-- C6: the node probe returns true iff either probe succeeds; it runs
a single probe on first success and exactly two (never more) otherwise;
on a first failure it opens the help resource and blocks on user
acknowledgment, and on a first success it does neither. -/
theorem check_node_single_recheck (p1 p2 : Bool) :
    (check_node p1 p2).verdict = (p1 || p2) ∧
      (check_node p1 p2).probes = (if p1 then 1 else 2) ∧
      (check_node p1 p2).probes ≤ 2 ∧
      (check_node false p2).openedHelp = true ∧
      (check_node false p2).blocked = true ∧
      (check_node true p2).probes = 1 ∧
      (check_node true p2).openedHelp = false ∧
      (check_node true p2).blocked = false := by
  cases p1 <;> cases p2 <;> decide

/-- C7: a `KeyboardInterrupt` during the dev-server run is caught and
turned into the clean `"Stopped."` message (no propagation), while any
other launch failure propagates out of `start_app` unchanged. -/
theorem start_app_interrupt_caught :
    start_app DevOutcome.interrupted
        = Except.ok ["🚀 Starting Pashudhan Lens...", "Stopped."] ∧
      (∀ e : String, start_app (DevOutcome.failed e) = Except.error e) :=
  ⟨rfl, fun _ => rfl⟩

/-- C9: in all three yes/no prompts — cleanup confirmation, overwrite
confirmation, run-cleanup choice — the only affirmative input is one
that strips and lowercases to the exact token `"y"`; in particular
`"yes"` cancels the cleanup while `" Y "` confirms it. -/
theorem only_y_is_affirmative (s g c confirm : String)
    (err : String → Option String) (fs : FS) (e : Entry)
    (hex : fs ".env" = some e) :
    ((clean_project s err fs).cancelled = false ↔ normalizeAnswer s = "y") ∧
      ((setup_environment fs s g c).2 = true ↔ normalizeAnswer s = "y") ∧
      ((ask_cleanup s confirm err fs).2 = true
        ↔ (normalizeAnswer s = "y" ∧ (fs "clean.py").isSome = true)) ∧
      normalizeAnswer s = pyLower (pyStrip s) ∧
      (clean_project "yes" err fs).cancelled = true ∧
      (clean_project " Y " err fs).cancelled = false := by
  have hyes : normalizeAnswer "yes" ≠ "y" := by decide
  have hY : normalizeAnswer " Y " = "y" := by decide
  refine ⟨?_, ?_, ?_, rfl, ?_, ?_⟩
  · by_cases hs : normalizeAnswer s = "y" <;> simp [clean_project, hs]
  · rw [setup_environment]
    rw [hex]
    by_cases hs : normalizeAnswer s = "y" <;> simp [hs]
  · by_cases hs : normalizeAnswer s = "y" <;>
      cases hcp : (fs "clean.py").isSome <;> simp [ask_cleanup, hs, hcp]
  · simp [clean_project, hyes]
  · simp [clean_project, hY]

/-- Witness for C9 at concrete answers on a filesystem holding an
`.env` file. -/
theorem only_y_is_affirmative_witness :
    ((clean_project "y" (fun _ => none)
          (fun p => if p = ".env" then some (Entry.file "K=V") else none)).cancelled
        = false ↔ normalizeAnswer "y" = "y") ∧
      ((setup_environment
            (fun p => if p = ".env" then some (Entry.file "K=V") else none)
            "y" "a" "b").2 = true ↔ normalizeAnswer "y" = "y") ∧
      ((ask_cleanup "y" "n" (fun _ => none)
            (fun p => if p = ".env" then some (Entry.file "K=V") else none)).2
          = true
        ↔ (normalizeAnswer "y" = "y" ∧
            ((fun p => if p = ".env" then some (Entry.file "K=V") else none)
                "clean.py").isSome = true)) ∧
      normalizeAnswer "y" = pyLower (pyStrip "y") ∧
      (clean_project "yes" (fun _ => none)
          (fun p => if p = ".env" then some (Entry.file "K=V") else none)).cancelled
        = true ∧
      (clean_project " Y " (fun _ => none)
          (fun p => if p = ".env" then some (Entry.file "K=V") else none)).cancelled
        = false :=
  only_y_is_affirmative "y" "a" "b" "n" (fun _ => none) _ (Entry.file "K=V")
    (by decide)

/-- C5 counterexample: with node present and `npm install` succeeding
(`install_dependencies true = none`, i.e. the installation step did not
fail), a dev-server launch that raises an uncaught error still
terminates the process with exit code 1 — so "non-zero exactly when the
dependency installation step fails / all other paths exit with code 0"
is false as stated. -/
theorem exit_code_claim_cex :
    install_dependencies true = none ∧
      (setupMain true true true (DevOutcome.failed "CalledProcessError")
          "" "" "" "" "" (fun _ => none) emptyFS).exitCode = 1 :=
  ⟨rfl, rfl⟩

/-- C5 amended: the setup process exits non-zero exactly when node was
found and either the dependency installation fails or the dev-server
launch raises an uncaught (non-interrupt) error; normal completion,
user cancellation/interrupt and the toolchain-absent path all exit 0. -/
theorem exit_code_characterization (p1 p2 npmOk : Bool) (dev : DevOutcome)
    (rc g c choice confirm : String) (err : String → Option String)
    (fs : FS) :
    ((setupMain p1 p2 npmOk dev rc g c choice confirm err fs).exitCode ≠ 0
      ↔ ((check_node p1 p2).verdict = true ∧
          (npmOk = false ∨ ∃ e, dev = DevOutcome.failed e))) := by
  cases p1 <;> cases p2 <;> cases npmOk <;> cases dev <;>
    simp [setupMain, check_node, install_dependencies, start_app]
